import Mathlib

/-!
Verification of the authentication/authorization core of the campus super-app
("SSO" identity service, shared launch-token codec, and the "traffic"
attendance-session engine) against its natural-language specification.

The Python source is shallowly embedded:
* JWTs (python-jose, HMAC-signed) are modeled as values pairing a claims
  payload with the secret they were signed with; `jwtDecode` succeeds exactly
  when the verifier's secret matches and the token is unexpired, mirroring
  signature + `exp` validation.  Arbitrary non-JWT input is the `garbage`
  constructor.
* SHA-256 (`hashlib.sha256(...).hexdigest()`, used for refresh-token hashes)
  and bcrypt are idealized as injective functions, modeled by wrapping the
  preimage in a one-field structure.
* Database tables are lists of rows; `db.get` / `.first()` is `List.find?`,
  in-place row mutation is a map over the list keyed by primary key, and
  `db.add` appends.  Fresh UUIDs are passed in as parameters.
* Wall-clock time is a `Nat` of seconds passed explicitly.
-/

/-- JWT claims payload.  Union of the claim sets used by the three token
families (access / refresh / launch + student-session); absent claims are
`none`.  `exp` is always set by every minting site in the source. -/
structure Payload where
  sub : Option String
  username : Option String
  fullName : Option String
  app : Option String
  role : Option String
  entityId : Option String
  authSource : Option String
  tokenType : Option String
  jti : Option String
  studentId : Option String
  studentName : Option String
  studentEmail : Option String
  exp : Nat
  deriving DecidableEq, Repr

/-- An empty payload to be updated with the claims a minting site sets. -/
def Payload.empty : Payload :=
  { sub := none, username := none, fullName := none, app := none, role := none
    entityId := none, authSource := none, tokenType := none, jti := none
    studentId := none, studentName := none, studentEmail := none, exp := 0 }

/-- A token string as presented by a caller: either an HMAC-signed JWT
(payload plus the secret it was signed with) or an undecodable string. -/
inductive Jwt where
  | signed (payload : Payload) (secret : String)
  | garbage (raw : String)
  deriving DecidableEq, Repr

/-- `jose.jwt.decode(token, secret, algorithms=[...])`: succeeds iff the
signature verifies (same secret) and the token is unexpired (`exp < now`
raises `ExpiredSignatureError`, so `now ≤ exp` passes). -/
def jwtDecode (tok : Jwt) (secret : String) (now : Nat) : Option Payload :=
  match tok with
  | .garbage _ => none
  | .signed p s => if s = secret ∧ now ≤ p.exp then some p else none

/-- `hashlib.sha256(token.encode()).hexdigest()` — modeled as an injective
function of the raw token string (collision-freeness idealized). -/
structure Digest where
  preimage : Jwt
  deriving DecidableEq, Repr

/-- `_hash_token` in `sso/backend/app/routers/auth.py`. -/
def hashToken (t : Jwt) : Digest := ⟨t⟩

/-- `pwd_context.hash(plaintext)` (bcrypt) — salted slow hash idealized as an
injective function of the plaintext. -/
structure PwHash where
  plain : String
  deriving DecidableEq, Repr

def pwdHash (plaintext : String) : PwHash := ⟨plaintext⟩

/-! ## Shared launch / student-session token codec
(`shared/python/poly_shared/auth/launch_token.py`) -/

/-- Student identity returned by the launch-token verifiers. -/
structure Identity where
  studentExternalId : String
  studentName : String
  studentEmail : String
  deriving DecidableEq, Repr

inductive LaunchError where
  | invalidOrExpired
  | incomplete
  deriving DecidableEq, Repr

/-- `verify_launch_token`: decode, then require `student_id` and
`student_name` to be present.  NOTE (faithful to source): no `token_type`
check is performed here. -/
def verifyLaunchToken (tok : Jwt) (secret : String) (now : Nat) :
    Except LaunchError Identity :=
  match jwtDecode tok secret now with
  | none => .error .invalidOrExpired
  | some p =>
    match p.studentId, p.studentName with
    | some sid, some name =>
      .ok { studentExternalId := sid, studentName := name
            studentEmail := p.studentEmail.getD "" }
    | _, _ => .error .incomplete

/-- `create_student_session_token`: re-signs the identity with the
`student_session` type discriminator and TTL `max 1 ttl_minutes` minutes. -/
def createStudentSessionToken (studentExternalId studentName studentEmail : String)
    (secret : String) (ttlMinutes : Nat) (now : Nat) : Jwt :=
  .signed
    { Payload.empty with
      studentId := some studentExternalId
      studentName := some studentName
      studentEmail := some studentEmail
      tokenType := some "student_session"
      exp := now + 60 * max 1 ttlMinutes }
    secret

inductive StudentSessionError where
  | invalidOrExpired
  | badType
  | incomplete
  deriving DecidableEq, Repr

/-- `verify_student_session_token`: decode, require
`token_type == "student_session"`, then require `student_id` and
`student_name`. -/
def verifyStudentSessionToken (tok : Jwt) (secret : String) (now : Nat) :
    Except StudentSessionError Identity :=
  match jwtDecode tok secret now with
  | none => .error .invalidOrExpired
  | some p =>
    if p.tokenType ≠ some "student_session" then .error .badType
    else
      match p.studentId, p.studentName with
      | some sid, some name =>
        .ok { studentExternalId := sid, studentName := name
              studentEmail := p.studentEmail.getD "" }
      | _, _ => .error .incomplete

/-! ## SSO identity store data model (`sso/backend/app/models/*`) -/

/-- Row of the `users` table. -/
structure User where
  id : String
  username : String
  passwordHash : PwHash
  fullName : String
  app : String
  role : String
  entityId : Option String
  ruzTeacherId : Option Int
  isActive : Bool
  createdAt : Nat
  deriving DecidableEq, Repr

/-- Row of the `refresh_sessions` table (columns per migration
`0002_refresh_sessions`). -/
structure RefreshSession where
  id : String
  userId : String
  tokenHash : Digest
  expiresAt : Nat
  revoked : Bool
  createdAt : Nat
  deriving DecidableEq, Repr

/-- Row of the `telegram_links` table (primary key `user_id`;
`telegram_id` unique). -/
structure TelegramLink where
  userId : String
  telegramId : Int
  telegramUsername : Option String
  chatId : Option Int
  linkedAt : Nat
  deriving DecidableEq, Repr

/-- The SSO service's relational state. -/
structure SsoDb where
  users : List User
  sessions : List RefreshSession
  links : List TelegramLink
  deriving DecidableEq, Repr

/-- SSO settings used by the embedded routes (from
`sso/backend/app/config.py`); TTLs are pre-converted to seconds. -/
structure SsoConfig where
  jwtSecret : String
  refreshSecret : String
  accessTtl : Nat
  refreshTtl : Nat
  servicesSecret : String
  trafficSecret : String
  botSecret : String
  deriving Repr

/-- `db.get(User, user_id)` — primary-key lookup. -/
def SsoDb.findUser (st : SsoDb) (uid : String) : Option User :=
  st.users.find? (fun u => u.id = uid)

/-- `db.get(RefreshSession, session_id)` — primary-key lookup. -/
def SsoDb.findSession (st : SsoDb) (sid : String) : Option RefreshSession :=
  st.sessions.find? (fun s => s.id = sid)

/-! ## SSO auth routes (`sso/backend/app/routers/auth.py`) -/

/-- `_make_access_token(user)`. -/
def makeAccessToken (cfg : SsoConfig) (u : User) (now : Nat) : Jwt :=
  .signed
    { Payload.empty with
      sub := some u.id
      username := some u.username
      fullName := some u.fullName
      app := some u.app
      role := some u.role
      entityId := u.entityId
      authSource := some "sso"
      exp := now + cfg.accessTtl }
    cfg.jwtSecret

/-- `_make_refresh_token(user, session_id)`. -/
def makeRefreshToken (cfg : SsoConfig) (u : User) (sessionId : String) (now : Nat) : Jwt :=
  .signed
    { Payload.empty with
      sub := some u.id
      app := some u.app
      role := some u.role
      tokenType := some "refresh"
      jti := some sessionId
      exp := now + cfg.refreshTtl }
    cfg.refreshSecret

/-- Rejection reasons of the refresh route; every one is raised as
HTTP 401 in the source. -/
inductive RefreshError where
  | invalidToken
  | badTokenType
  | badTokenShape
  | sessionNotFound
  | userMismatch
  | sessionRevoked
  | sessionExpired
  | hashMismatch
  | userUnavailable
  deriving DecidableEq, Repr

/-- HTTP status of each `HTTPException` raised by `refresh_tokens`
(all literal 401 in the source). -/
def RefreshError.status : RefreshError → Nat
  | .invalidToken => 401
  | .badTokenType => 401
  | .badTokenShape => 401
  | .sessionNotFound => 401
  | .userMismatch => 401
  | .sessionRevoked => 401
  | .sessionExpired => 401
  | .hashMismatch => 401
  | .userUnavailable => 401

/-- `_decode_refresh_token`: jose decode with the refresh secret, then the
`token_type == "refresh"` check, then `isinstance(jti, str)` and
`isinstance(sub, str)` (absence of the claim models a non-string value).
Returns `(jti, sub, payload)` on success. -/
def decodeRefreshToken (cfg : SsoConfig) (tok : Jwt) (now : Nat) :
    Except RefreshError (String × String × Payload) :=
  match jwtDecode tok cfg.refreshSecret now with
  | none => .error .invalidToken
  | some p =>
    if p.tokenType ≠ some "refresh" then .error .badTokenType
    else
      match p.jti, p.sub with
      | some jti, some sub => .ok (jti, sub, p)
      | _, _ => .error .badTokenShape

/-- `_issue_refresh_session(db, user)` given the fresh UUID: the new refresh
token and the session row storing its hash. -/
def issueRefreshSession (cfg : SsoConfig) (u : User) (freshId : String) (now : Nat) :
    Jwt × RefreshSession :=
  let tok := makeRefreshToken cfg u freshId now
  (tok,
   { id := freshId, userId := u.id, tokenHash := hashToken tok
     expiresAt := now + cfg.refreshTtl, revoked := false, createdAt := now })

/-- `refresh_tokens` (POST /refresh): decode, look up the session by the
embedded id, run the five session-level checks, require a live account, then
rotate: revoke the old session row and add a brand-new session + token pair.
Returns the new state, the new access token and the new refresh token. -/
def refreshTokens (cfg : SsoConfig) (st : SsoDb) (tok : Jwt) (now : Nat)
    (freshId : String) : Except RefreshError (SsoDb × Jwt × Jwt) :=
  match decodeRefreshToken cfg tok now with
  | .error e => .error e
  | .ok (sessionId, userId, _payload) =>
    match st.findSession sessionId with
    | none => .error .sessionNotFound
    | some s =>
      if s.userId ≠ userId then .error .userMismatch
      else if s.revoked then .error .sessionRevoked
      else if s.expiresAt ≤ now then .error .sessionExpired
      else if s.tokenHash ≠ hashToken tok then .error .hashMismatch
      else
        match st.findUser userId with
        | none => .error .userUnavailable
        | some u =>
          if ¬ u.isActive then .error .userUnavailable
          else
            let (newTok, newSession) := issueRefreshSession cfg u freshId now
            let accessTok := makeAccessToken cfg u now
            .ok
              ({ st with
                 sessions :=
                   (st.sessions.map
                     (fun r => if r.id = sessionId then { r with revoked := true } else r))
                   ++ [newSession] },
               accessTok, newTok)

/-- Request/transaction view of the refresh route: an `HTTPException` is
raised before any mutation is committed, so on error the stored state is
returned unchanged. -/
def refreshEndpoint (cfg : SsoConfig) (st : SsoDb) (tok : Jwt) (now : Nat)
    (freshId : String) : SsoDb × Except RefreshError (Jwt × Jwt) :=
  match refreshTokens cfg st tok now freshId with
  | .error e => (st, .error e)
  | .ok (st', access, refresh) => (st', .ok (access, refresh))

/-- `logout` (POST /logout): best-effort revoke; decode failures are
swallowed; always answers `{"status": "ok"}`. -/
def logout (cfg : SsoConfig) (st : SsoDb) (tok : Jwt) (now : Nat) :
    SsoDb × String :=
  match decodeRefreshToken cfg tok now with
  | .error _ => (st, "ok")
  | .ok (sessionId, _userId, _payload) =>
    match st.findSession sessionId with
    | some s =>
      if ¬ s.revoked then
        ({ st with
           sessions := st.sessions.map
             (fun r => if r.id = sessionId then { r with revoked := true } else r) },
         "ok")
      else (st, "ok")
    | none => (st, "ok")

/-! ## Service caller resolution (`sso/backend/app/service_auth.py`) -/

/-- `resolve_service_caller`: maps the pre-shared `X-Service-Secret` header to
the calling app via static configuration.  `if not x_service_secret` is
Python truthiness, so a missing or empty header resolves to nothing. -/
def resolveServiceCaller (cfg : SsoConfig) (xServiceSecret : Option String) :
    Option String :=
  match xServiceSecret with
  | none => none
  | some s =>
    if s = "" then none
    else if s = cfg.servicesSecret then some "services"
    else if s = cfg.trafficSecret then some "traffic"
    else if s = cfg.botSecret then some "bot"
    else none

/-- `caller_allowed_apps`: the app set each service caller may touch. -/
def callerAllowedApps : String → List String
  | "services" => ["services"]
  | "traffic" => ["traffic"]
  | "bot" => ["traffic"]
  | _ => []

/-- Caller context produced by `_require_sso_admin_or_service`: either a
service backend (resolved from its secret) or an SSO admin bearer. -/
inductive CallerCtx where
  | service (app : String)
  | admin
  deriving DecidableEq, Repr

/-! ## SSO users router (`sso/backend/app/routers/users.py`) -/

/-- Serialized user row (`_serialize` in `users.py`). -/
structure SUser where
  id : String
  username : String
  fullName : String
  app : String
  role : String
  entityId : Option String
  ruzTeacherId : Option Int
  telegramId : Option Int
  telegramUsername : Option String
  telegramLinked : Bool
  isActive : Bool
  createdAt : Nat
  deriving DecidableEq, Repr

def serializeUser (st : SsoDb) (u : User) : SUser :=
  let link := st.links.find? (fun l => l.userId = u.id)
  { id := u.id, username := u.username, fullName := u.fullName, app := u.app
    role := u.role, entityId := u.entityId, ruzTeacherId := u.ruzTeacherId
    telegramId := link.map (·.telegramId)
    telegramUsername := link.bind (·.telegramUsername)
    telegramLinked := (link.map (·.telegramId)).isSome
    isActive := u.isActive, createdAt := u.createdAt }

/-- Python truthiness of an optional string (`if not app_filter`). -/
def optTruthy (o : Option String) : Bool :=
  match o with
  | none => false
  | some s => ¬ s.isEmpty

/-- Substring test over character lists: some suffix of `l` starts with
`pat`.  Models SQL `LIKE '%pat%'`. -/
def charsContain (pat : List Char) : List Char → Bool
  | [] => pat.isEmpty
  | c :: rest => pat.isPrefixOf (c :: rest) || charsContain pat rest

def strContainsSub (s pat : String) : Bool :=
  charsContain pat.data s.data

/-- `order_by(User.app, User.role, User.created_at, User.id)` as a
lexicographic comparison. -/
def userListLe (a b : User) : Bool :=
  if a.app = b.app then
    if a.role = b.role then
      if a.createdAt = b.createdAt then a.id ≤ b.id
      else a.createdAt ≤ b.createdAt
    else a.role ≤ b.role
  else a.app ≤ b.app

inductive ListError where
  | missingAppFilter
  | forbiddenAppFilter
  deriving DecidableEq, Repr

/-- HTTP status of the `list_users` rejections. -/
def ListError.status : ListError → Nat
  | .missingAppFilter => 400
  | .forbiddenAppFilter => 403

/-- Result of `list_users`: a bare list, or the pagination envelope when
`page`/`page_size` was supplied. -/
inductive UserListResult where
  | plain (items : List SUser)
  | paged (items : List SUser) (total page pageSize totalPages : Nat)
  deriving DecidableEq, Repr

def UserListResult.items : UserListResult → List SUser
  | .plain l => l
  | .paged l _ _ _ _ => l

/-- `if app_filter: q = q.filter(User.app == app_filter)`. -/
def applyAppFilter (users : List User) (appFilter : Option String) : List User :=
  if optTruthy appFilter then users.filter (fun u => u.app = appFilter.getD "")
  else users

/-- `if role_filter: q = q.filter(User.role == role_filter)`. -/
def applyRoleFilter (users : List User) (roleFilter : Option String) : List User :=
  if optTruthy roleFilter then users.filter (fun u => u.role = roleFilter.getD "")
  else users

/-- `if entity_ids: values = [...strip, drop empties...]; if values:
q = q.filter(User.entity_id.in_(values))` (SQL `IN` never matches NULL). -/
def applyEntityIdsFilter (users : List User) (entityIds : Option String) : List User :=
  if optTruthy entityIds then
    let values := (((entityIds.getD "").splitOn ",").map String.trim).filter
      (fun v => ¬ v.isEmpty)
    if values ≠ [] then
      users.filter (fun u => u.entityId.any (fun e => e ∈ values))
    else users
  else users

/-- The `search` filter: `LIKE '%normalized%'` on lowered full name or
username. -/
def applySearchFilter (users : List User) (search : Option String) : List User :=
  let normalizedSearch := match search with
    | some s => s.trim.toLower
    | none => ""
  if normalizedSearch ≠ "" then
    users.filter (fun u =>
      strContainsSub u.fullName.toLower normalizedSearch ||
      strContainsSub u.username.toLower normalizedSearch)
  else users

/-- The filter / order / paginate pipeline of `list_users` after the
authorization gate. -/
def listUsersQuery (st : SsoDb) (appFilter roleFilter search entityIds : Option String)
    (page pageSize : Option Nat) : UserListResult :=
  let sorted := (applySearchFilter
    (applyEntityIdsFilter (applyRoleFilter (applyAppFilter st.users appFilter) roleFilter)
      entityIds) search).mergeSort userListLe
  if page = none ∧ pageSize = none then
    .plain (sorted.map (serializeUser st))
  else
    let resolvedPage := match page with
      | some p => if p = 0 then 1 else p
      | none => 1
    let resolvedPageSize := match pageSize with
      | some p => if p = 0 then 20 else p
      | none => 20
    let total := sorted.length
    let items := ((sorted.drop ((resolvedPage - 1) * resolvedPageSize)).take
      resolvedPageSize).map (serializeUser st)
    .paged items total resolvedPage resolvedPageSize
      (max 1 ((total + resolvedPageSize - 1) / resolvedPageSize))

/-- `list_users` (GET /): a service caller must supply an `app_filter` inside
its allowed app set; the check uses the caller identity resolved from the
secret, never the tag the caller asks for. -/
def listUsers (st : SsoDb) (caller : CallerCtx)
    (appFilter roleFilter search entityIds : Option String)
    (page pageSize : Option Nat) : Except ListError UserListResult :=
  match caller with
  | .service svc =>
    if ¬ optTruthy appFilter then .error .missingAppFilter
    else if appFilter.getD "" ∉ callerAllowedApps svc then .error .forbiddenAppFilter
    else .ok (listUsersQuery st appFilter roleFilter search entityIds page pageSize)
  | .admin => .ok (listUsersQuery st appFilter roleFilter search entityIds page pageSize)

/-- Body of POST /{user_id}/telegram-link. -/
structure LinkRequest where
  telegramId : Int
  telegramUsername : Option String
  chatId : Option Int
  deriving DecidableEq, Repr

inductive LinkError where
  | userNotFound
  | serviceNotAllowed
  | targetNotTraffic
  | telegramAlreadyLinked
  deriving DecidableEq, Repr

/-- HTTP status of each `HTTPException` raised by `link_telegram`. -/
def LinkError.status : LinkError → Nat
  | .userNotFound => 404
  | .serviceNotAllowed => 403
  | .targetNotTraffic => 403
  | .telegramAlreadyLinked => 400

/-- The caller gate at the head of `link_telegram`: service callers must be
`traffic` or `bot` and may only touch traffic users. -/
def linkCallerGate (caller : CallerCtx) (u : User) : Option LinkError :=
  match caller with
  | .admin => none
  | .service svc =>
    if svc ∉ (["traffic", "bot"] : List String) then some .serviceNotAllowed
    else if u.app ≠ "traffic" then some .targetNotTraffic
    else none

/-- `link_telegram` (POST /{user_id}/telegram-link): reject when the external
telegram id is already linked to a different account; otherwise upsert the
link row keyed by owning user id. -/
def linkTelegram (st : SsoDb) (userId : String) (data : LinkRequest)
    (caller : CallerCtx) (now : Nat) : Except LinkError (SsoDb × SUser) :=
  match st.findUser userId with
  | none => .error .userNotFound
  | some u =>
    match linkCallerGate caller u with
    | some e => .error e
    | none =>
      let conflicting : Bool :=
        (st.links.find? (fun l => l.telegramId = data.telegramId)).any
          (fun l => l.userId ≠ userId)
      if conflicting then .error .telegramAlreadyLinked
      else
        let links' := match st.links.find? (fun l => l.userId = userId) with
          | some _ =>
            st.links.map (fun l =>
              if l.userId = userId then
                { l with telegramId := data.telegramId
                         telegramUsername := data.telegramUsername
                         chatId := data.chatId }
              else l)
          | none =>
            st.links ++
              [{ userId := userId, telegramId := data.telegramId
                 telegramUsername := data.telegramUsername
                 chatId := data.chatId, linkedAt := now }]
        let st' := { st with links := links' }
        .ok (st', serializeUser st' u)

/-- Request/transaction view of `link_telegram`: a raise happens before any
mutation, so the stored state is unchanged on error. -/
def linkTelegramEndpoint (st : SsoDb) (userId : String) (data : LinkRequest)
    (caller : CallerCtx) (now : Nat) : SsoDb × Except LinkError SUser :=
  match linkTelegram st userId data caller now with
  | .error e => (st, .error e)
  | .ok (st', su) => (st', .ok su)

/-! ## Provisioning gateway (`sso/backend/app/routers/provision.py`) -/

/-- Body of the provisioning upsert endpoints. -/
structure ProvisionRequest where
  username : String
  password : String
  fullName : String
  entityId : String
  ruzTeacherId : Option Int
  deriving DecidableEq, Repr

inductive UpsertError where
  | entityIdRequired
  | ambiguousIdentity
  | duplicateUsername
  deriving DecidableEq, Repr

/-- HTTP status of each `HTTPException` raised by `_upsert_user`. -/
def UpsertError.status : UpsertError → Nat
  | .entityIdRequired => 400
  | .ambiguousIdentity => 409
  | .duplicateUsername => 400

def findByEntity (st : SsoDb) (app role entityId : String) : Option User :=
  st.users.find? (fun u => u.app = app ∧ u.role = role ∧ u.entityId = some entityId)

def findByRuz (st : SsoDb) (app role : String) (ruzId : Int) : Option User :=
  st.users.find? (fun u => u.app = app ∧ u.role = role ∧ u.ruzTeacherId = some ruzId)

def findByUsername (st : SsoDb) (username : String) : Option User :=
  st.users.find? (fun u => u.username = username)

/-- `_upsert_user`: resolve the target by (app, role, entity_id), falling back
to (app, role, ruz_teacher_id); conflicting resolutions are a 409; a username
held by any other account is a 400; then create or update in place, always
re-hashing the password. -/
def upsertUser (st : SsoDb) (app role : String) (data : ProvisionRequest)
    (freshId : String) (now : Nat) : Except UpsertError (SsoDb × User) :=
  if data.entityId = "" then .error .entityIdRequired
  else
    let byEntity := findByEntity st app role data.entityId
    let byRuz := match data.ruzTeacherId with
      | none => none
      | some r => findByRuz st app role r
    let ambiguous : Bool :=
      byEntity.any (fun a => byRuz.any (fun b => a.id ≠ b.id))
    if ambiguous then .error .ambiguousIdentity
    else
      let target := byEntity <|> byRuz
      let sameUsername := findByUsername st data.username
      let duplicate : Bool :=
        sameUsername.any (fun w => target.elim true (fun t => decide (w.id ≠ t.id)))
      if duplicate then .error .duplicateUsername
      else
        match target with
        | none =>
          let newUser : User :=
            { id := freshId, username := data.username
              passwordHash := pwdHash data.password, fullName := data.fullName
              app := app, role := role, entityId := some data.entityId
              ruzTeacherId := data.ruzTeacherId, isActive := true, createdAt := now }
          .ok ({ st with users := st.users ++ [newUser] }, newUser)
        | some t =>
          let updated : User :=
            { t with username := data.username
                     passwordHash := pwdHash data.password
                     fullName := data.fullName
                     entityId := some data.entityId
                     ruzTeacherId := data.ruzTeacherId
                     isActive := true }
          .ok ({ st with users := st.users.map (fun u => if u.id = t.id then updated else u) },
               updated)

/-! ## Attendance session engine (`traffic/backend/app/routers/sessions.py`,
models in `traffic/backend/app/models/*`) -/

/-- Row of the traffic `sessions` table. -/
structure TrafficSession where
  id : String
  tabletId : String
  teacherId : Option String
  teacherName : String
  discipline : String
  qrSecret : String
  rotateSeconds : Nat
  startedAt : Nat
  endedAt : Option Nat
  isActive : Bool
  deriving DecidableEq, Repr

/-- Row of the `attendance` table (unique on (session_id,
student_external_id)). -/
structure Attendance where
  id : String
  sessionId : String
  studentExternalId : String
  studentName : String
  studentEmail : String
  markedAt : Nat
  deriving DecidableEq, Repr

structure TrafficDb where
  sessions : List TrafficSession
  attendance : List Attendance
  deriving DecidableEq, Repr

/-- Traffic settings used by the embedded routes. -/
structure TrafficConfig where
  launchTokenSecret : String
  qrRotateSeconds : Nat
  sessionMaxMinutes : Nat
  deriving Repr

/-- The truncated rotating proof for window `w`:
`hmac.new(qr_secret, f"{session.id}|{w}", sha256).hexdigest()[:16]`.
`mac` abstracts the HMAC-SHA256 hex digest (key, message ↦ digest). -/
def qrExpected (mac : String → String → String) (s : TrafficSession) (w : Int) : String :=
  (mac s.qrSecret (s.id ++ "|" ++ toString w)).take 16

/-- `_verify_qr_token`: accept the proof of the current or the previous
window, `window = int(time.time()) // rotate_seconds`. -/
def verifyQrToken (mac : String → String → String) (s : TrafficSession)
    (token : String) (now : Nat) : Bool :=
  let window : Int := (now : Int) / (s.rotateSeconds : Int)
  token = qrExpected mac s window ∨ token = qrExpected mac s (window - 1)

inductive MarkError where
  | sessionNotFound
  | staleQr
  | identityNotConfirmed
  deriving DecidableEq, Repr

/-- HTTP status of each `HTTPException` raised by `mark_attendance`. -/
def MarkError.status : MarkError → Nat
  | .sessionNotFound => 404
  | .staleQr => 400
  | .identityNotConfirmed => 401

inductive MarkOutcome where
  | marked
  | alreadyMarked
  deriving DecidableEq, Repr

/-- The `status` field of the mark-attendance response body. -/
def MarkOutcome.statusString : MarkOutcome → String
  | .marked => "ok"
  | .alreadyMarked => "already_marked"

def countMarks (st : TrafficDb) (sessionId studentExternalId : String) : Nat :=
  (st.attendance.filter (fun a =>
    a.sessionId = sessionId ∧ a.studentExternalId = studentExternalId)).length

/-- `mark_attendance` (POST /{session_id}/attend): 404 when the session is
missing or inactive; 400 when the rotating proof fails; 401 when the launch
token fails; an existing (session, student) mark is an idempotent
`already_marked` no-op; otherwise insert the mark. -/
def markAttendance (mac : String → String → String) (cfg : TrafficConfig)
    (st : TrafficDb) (sessionId : String) (qrToken : String) (launchToken : Jwt)
    (now : Nat) (freshId : String) : Except MarkError (TrafficDb × MarkOutcome) :=
  match st.sessions.find? (fun s => s.id = sessionId) with
  | none => .error .sessionNotFound
  | some s =>
    if ¬ s.isActive then .error .sessionNotFound
    else if ¬ verifyQrToken mac s qrToken now then .error .staleQr
    else
      match verifyLaunchToken launchToken cfg.launchTokenSecret now with
      | .error _ => .error .identityNotConfirmed
      | .ok idn =>
        match st.attendance.find? (fun a =>
          a.sessionId = sessionId ∧ a.studentExternalId = idn.studentExternalId) with
        | some _ => .ok (st, .alreadyMarked)
        | none =>
          .ok ({ st with attendance := st.attendance ++
                  [{ id := freshId, sessionId := sessionId
                     studentExternalId := idn.studentExternalId
                     studentName := idn.studentName
                     studentEmail := idn.studentEmail, markedAt := now }] },
               .marked)

/-! ## Launch-token minting (`superapp/backend/app/routers/miniapps.py`,
`get_launch_token`) -/

/-- `get_launch_token`: signs `{student_id, student_name, student_email}`
with `LAUNCH_TOKEN_SECRET` and a 5-minute expiry.  No `token_type` claim is
set. -/
def createLaunchToken (studentId studentName studentEmail : String)
    (secret : String) (now : Nat) : Jwt :=
  .signed
    { Payload.empty with
      studentId := some studentId
      studentName := some studentName
      studentEmail := some studentEmail
      exp := now + 5 * 60 }
    secret

/-! ## Concrete scenario constants used by the witness theorems -/

/-- HMAC-SHA256 hex digest instantiated, for concrete scenarios, by the
(injective-on-messages) function that returns the message itself. -/
def macW : String → String → String := fun _ msg => msg

def qrSessW : TrafficSession :=
  { id := "s1", tabletId := "tab1", teacherId := some "t1", teacherName := "T"
    discipline := "Math", qrSecret := "k", rotateSeconds := 5, startedAt := 0
    endedAt := none, isActive := true }

def trafficCfgW : TrafficConfig :=
  { launchTokenSecret := "launch-secret", qrRotateSeconds := 5, sessionMaxMinutes := 90 }

def trafficDbW : TrafficDb := { sessions := [qrSessW], attendance := [] }

def attendanceRowW : Attendance :=
  { id := "a1", sessionId := "s1", studentExternalId := "stu-100"
    studentName := "Bob", studentEmail := "bob@x", markedAt := 7 }

/-- Traffic state in which student `stu-100` is already marked in session
`s1`. -/
def trafficDbMarkedW : TrafficDb := { sessions := [qrSessW], attendance := [attendanceRowW] }

/-- A launch token for `stu-100` that expired at time 3. -/
def expiredLaunchW : Jwt := createLaunchToken "stu-100" "Bob" "bob@x" "launch-secret" 0

/-- A launch token for `stu-100` minted at time 8 (valid at time 10). -/
def validLaunchW : Jwt := createLaunchToken "stu-100" "Bob" "bob@x" "launch-secret" 8

def ssoCfgW : SsoConfig :=
  { jwtSecret := "jwt-secret", refreshSecret := "refresh-secret", accessTtl := 100
    refreshTtl := 1000, servicesSecret := "svc-services", trafficSecret := "svc-traffic"
    botSecret := "svc-bot" }

def ssoUserW : User :=
  { id := "u1", username := "alice", passwordHash := pwdHash "pw", fullName := "Alice"
    app := "sso", role := "admin", entityId := none, ruzTeacherId := none
    isActive := true, createdAt := 0 }

/-- The refresh token of the login-time session `sid0` (issued at time 0). -/
def refreshTokW : Jwt := (issueRefreshSession ssoCfgW ssoUserW "sid0" 0).1

def refreshSessW : RefreshSession := (issueRefreshSession ssoCfgW ssoUserW "sid0" 0).2

def ssoDbW : SsoDb := { users := [ssoUserW], sessions := [refreshSessW], links := [] }

/-- The payload embedded in `refreshTokW`. -/
def refreshPayloadW : Payload :=
  { Payload.empty with
    sub := some "u1", app := some "sso", role := some "admin"
    tokenType := some "refresh", jti := some "sid0", exp := 1000 }

/-- Account A of the external-link scenario (owns telegram id 42). -/
def userAW : User :=
  { id := "uA", username := "a", passwordHash := pwdHash "pa", fullName := "A"
    app := "traffic", role := "teacher", entityId := some "eA", ruzTeacherId := none
    isActive := true, createdAt := 0 }

/-- Account B of the external-link scenario (no link). -/
def userBW : User :=
  { id := "uB", username := "b", passwordHash := pwdHash "pb", fullName := "B"
    app := "traffic", role := "teacher", entityId := some "eB", ruzTeacherId := none
    isActive := true, createdAt := 1 }

def tgLinkW : TelegramLink :=
  { userId := "uA", telegramId := 42, telegramUsername := some "a_tg"
    chatId := none, linkedAt := 2 }

def linkDbW : SsoDb := { users := [userAW, userBW], sessions := [], links := [tgLinkW] }

def linkReqW : LinkRequest := { telegramId := 42, telegramUsername := some "b_tg", chatId := none }

/-- A `services`-app staff account, for the listing scenario. -/
def userSvcW : User :=
  { id := "uS", username := "svc-user", passwordHash := pwdHash "ps", fullName := "Svc"
    app := "services", role := "staff", entityId := some "d1", ruzTeacherId := none
    isActive := true, createdAt := 0 }

/-- A `traffic`-app teacher account, for the listing scenario. -/
def userTrfW : User :=
  { id := "uT", username := "trf-user", passwordHash := pwdHash "pt", fullName := "Trf"
    app := "traffic", role := "teacher", entityId := some "t1", ruzTeacherId := some 7
    isActive := true, createdAt := 1 }

def listDbW : SsoDb := { users := [userSvcW, userTrfW], sessions := [], links := [] }

/-- Provisioning request for teacher entity `e1`. -/
def preqW : ProvisionRequest :=
  { username := "t1", password := "p", fullName := "Teacher One", entityId := "e1"
    ruzTeacherId := some 7 }

/-- The account the first upsert of `preqW` creates. -/
def provUserW : User :=
  { id := "id1", username := "t1", passwordHash := pwdHash "p", fullName := "Teacher One"
    app := "traffic", role := "teacher", entityId := some "e1", ruzTeacherId := some 7
    isActive := true, createdAt := 0 }

/-- An unrelated account already holding username `taken`. -/
def provUser2W : User :=
  { id := "id2", username := "taken", passwordHash := pwdHash "q", fullName := "Other"
    app := "traffic", role := "teacher", entityId := some "e2", ruzTeacherId := some 8
    isActive := true, createdAt := 0 }

def provDbW : SsoDb := { users := [provUserW, provUser2W], sessions := [], links := [] }

/-- State holding only the provisioned teacher account. -/
def provDb1W : SsoDb := { users := [provUserW], sessions := [], links := [] }

/-- `preqW` re-sent with a changed display name. -/
def reqRenameW : ProvisionRequest := { preqW with fullName := "Teacher Renamed" }

/-- `preqW` re-sent with a username already owned by `provUser2W`. -/
def reqTakenW : ProvisionRequest := { preqW with username := "taken" }

/-- Entity/roster-ambiguity scenario: `amb1` matches by entity id,
`amb2` matches by roster id. -/
def ambUser1W : User :=
  { id := "amb1", username := "amb-a", passwordHash := pwdHash "x", fullName := "Amb A"
    app := "traffic", role := "teacher", entityId := some "e1", ruzTeacherId := some 9
    isActive := true, createdAt := 0 }

def ambUser2W : User :=
  { id := "amb2", username := "amb-b", passwordHash := pwdHash "y", fullName := "Amb B"
    app := "traffic", role := "teacher", entityId := some "e9", ruzTeacherId := some 7
    isActive := true, createdAt := 0 }

def ambDbW : SsoDb := { users := [ambUser1W, ambUser2W], sessions := [], links := [] }

/-- The state after rotating `sid0` into `sid1` at time 5. -/
def rotatedDbW : SsoDb :=
  { users := [ssoUserW]
    sessions := [{ refreshSessW with revoked := true },
                 (issueRefreshSession ssoCfgW ssoUserW "sid1" 5).2]
    links := [] }

/-- The refresh token the rotation at time 5 hands back. -/
def rotatedTokW : Jwt := (issueRefreshSession ssoCfgW ssoUserW "sid1" 5).1

/-- `ssoUserW` deactivated, with its refresh session still stored. -/
def ssoUserInactiveW : User := { ssoUserW with isActive := false }

def ssoDbInactiveW : SsoDb :=
  { users := [ssoUserInactiveW], sessions := [refreshSessW], links := [] }

/-! ## Helper lemmas -/

/-- Characterization of a successful JWT decode. -/
theorem jwtDecode_eq_some {tok : Jwt} {secret : String} {now : Nat} {q : Payload} :
    jwtDecode tok secret now = some q ↔ tok = .signed q secret ∧ now ≤ q.exp := by
  cases tok with
  | garbage r => simp [jwtDecode]
  | signed p s =>
    simp only [jwtDecode]
    constructor
    · intro h
      split at h
      · next hc =>
        cases h
        exact ⟨by rw [hc.1], hc.2⟩
      · exact absurd h (by simp)
    · rintro ⟨hs, he⟩
      cases hs
      simp [he]

/-- Every rejection of the refresh route is an HTTP 401 (Unauthenticated). -/
theorem refreshError_status_401 (e : RefreshError) : e.status = 401 := by
  cases e <;> rfl

/-- `find?` commutes with a map that does not change the predicate's value. -/
theorem find?_map_self {α : Type} (p : α → Bool) (f : α → α)
    (hf : ∀ a, p (f a) = p a) :
    ∀ l : List α, (l.map f).find? p = (l.find? p).map f := by
  intro l
  induction l with
  | nil => rfl
  | cons a l ih =>
    simp only [List.map_cons, List.find?_cons]
    cases hpa : p a with
    | true => simp [hf a, hpa]
    | false => simp [hf a, hpa, ih]

/-- Claim C6: a presented rotating proof is accepted at time `now` iff it
equals the truncated `HMAC(secret, session_id || w)` for `w = now div
rotate_seconds` or `w - 1`; consequently a proof computed for window `w`
(with distinct digests across neighbouring windows) verifies throughout
window `w` and at the start of window `w + 1`, but fails at window
`w + 2`. -/
theorem qr_proof_window_acceptance
    (mac : String → String → String) (s : TrafficSession)
    (hrot : 0 < s.rotateSeconds) :
    (∀ (token : String) (now : Nat),
      verifyQrToken mac s token now = true ↔
        token = qrExpected mac s ((now : Int) / (s.rotateSeconds : Int)) ∨
        token = qrExpected mac s ((now : Int) / (s.rotateSeconds : Int) - 1)) ∧
    (∀ w : Nat,
      qrExpected mac s w ≠ qrExpected mac s (w + 1 : Nat) →
      qrExpected mac s w ≠ qrExpected mac s (w + 2 : Nat) →
      (∀ now : Nat, now / s.rotateSeconds = w →
        verifyQrToken mac s (qrExpected mac s w) now = true) ∧
      verifyQrToken mac s (qrExpected mac s w) ((w + 1) * s.rotateSeconds) = true ∧
      (∀ now : Nat, now / s.rotateSeconds = w + 2 →
        verifyQrToken mac s (qrExpected mac s w) now = false)) := by
  have hwin : ∀ now : Nat, (now : Int) / (s.rotateSeconds : Int) = ((now / s.rotateSeconds : Nat) : Int) := by
    intro now
    exact_mod_cast (Int.ofNat_ediv now s.rotateSeconds).symm
  constructor
  · intro token now
    simp [verifyQrToken]
  · intro w hne1 hne2
    refine ⟨?_, ?_, ?_⟩
    · intro now hnow
      simp only [verifyQrToken, hwin, hnow]
      simp
    · have hdiv : ((w + 1) * s.rotateSeconds) / s.rotateSeconds = w + 1 :=
        Nat.mul_div_cancel (w + 1) hrot
      simp only [verifyQrToken, hwin, hdiv]
      have : ((w + 1 : Nat) : Int) - 1 = (w : Nat) := by push_cast; ring
      rw [this]
      simp
    · intro now hnow
      simp only [verifyQrToken, hwin, hnow]
      have h1 : ((w + 2 : Nat) : Int) = ((w : Nat) : Int) + 2 := by push_cast; ring
      have h2 : ((w + 2 : Nat) : Int) - 1 = ((w + 1 : Nat) : Int) := by push_cast; ring
      rw [h2]
      simp only [decide_eq_true_eq, or_iff_not_imp_left]
      simp only [decide_eq_false_iff_not]
      push_neg
      constructor
      · exact hne2
      · exact hne1

/-- Witness for claim C6 at a concrete session (`rotate_seconds = 5`,
window 2, i.e. real times 10–14): the window-2 proof verifies at time 12
(inside window 2) and at time 15 (start of window 3) but not at time 20
(window 4). -/
theorem qr_proof_window_acceptance_witness :
    verifyQrToken macW qrSessW (qrExpected macW qrSessW 2) 12 = true ∧
    verifyQrToken macW qrSessW (qrExpected macW qrSessW 2) 15 = true ∧
    verifyQrToken macW qrSessW (qrExpected macW qrSessW 2) 20 = false := by
  have h := (qr_proof_window_acceptance macW qrSessW (by decide)).2 2 (by decide) (by decide)
  exact ⟨h.1 12 (by decide), h.2.1, h.2.2 20 (by decide)⟩

/-- Claim C2 counterexample: a well-formed student-session token (type
discriminator `student_session`, student id and name present) is accepted by
`verify_student_session_token` AND by `verify_launch_token` under the same
secret — the launch-token verifier never inspects the discriminator, so the
two verifiers do not mutually reject each other's tokens. -/
theorem launch_verifier_accepts_student_session_cx :
    verifyStudentSessionToken
      (createStudentSessionToken "stu-100" "Bob" "bob@x" "sec" 720 0) "sec" 0 =
      .ok { studentExternalId := "stu-100", studentName := "Bob", studentEmail := "bob@x" } ∧
    verifyLaunchToken
      (createStudentSessionToken "stu-100" "Bob" "bob@x" "sec" 720 0) "sec" 0 =
      .ok { studentExternalId := "stu-100", studentName := "Bob", studentEmail := "bob@x" } := by
  constructor <;> rfl

/-- Claim C2 (amended): the type discriminator protects one direction only.
`verify_student_session_token` rejects every decodable token whose
`token_type` is not `student_session` — in particular every launch token
minted by `get_launch_token`, which carries no `token_type` — while
`verify_launch_token` accepts a valid student-session token signed with the
same secret, because it checks only field presence. -/
theorem student_session_discriminator_one_way :
    (∀ (tok : Jwt) (secret : String) (now : Nat) (p : Payload),
      jwtDecode tok secret now = some p →
      p.tokenType ≠ some "student_session" →
      ∃ e, verifyStudentSessionToken tok secret now = .error e) ∧
    (∀ (sid name email secret : String) (now now2 : Nat),
      now2 ≤ now + 5 * 60 →
      ∃ e, verifyStudentSessionToken (createLaunchToken sid name email secret now)
        secret now2 = .error e) ∧
    (∀ (sid name email secret : String) (ttl now now2 : Nat),
      now2 ≤ now + 60 * max 1 ttl →
      verifyLaunchToken (createStudentSessionToken sid name email secret ttl now)
        secret now2 =
        .ok { studentExternalId := sid, studentName := name, studentEmail := email }) := by
  refine ⟨?_, ?_, ?_⟩
  · intro tok secret now p hdec htype
    refine ⟨.badType, ?_⟩
    simp only [verifyStudentSessionToken, hdec]
    simp [htype]
  · intro sid name email secret now now2 hle
    refine ⟨.badType, ?_⟩
    have hdec : jwtDecode (createLaunchToken sid name email secret now) secret now2 =
        some { Payload.empty with
               studentId := some sid, studentName := some name
               studentEmail := some email, exp := now + 5 * 60 } := by
      simp [createLaunchToken, jwtDecode, hle]
    simp only [verifyStudentSessionToken, hdec]
    simp [Payload.empty]
  · intro sid name email secret ttl now now2 hle
    have hdec : jwtDecode (createStudentSessionToken sid name email secret ttl now)
        secret now2 =
        some { Payload.empty with
               studentId := some sid, studentName := some name
               studentEmail := some email, tokenType := some "student_session"
               exp := now + 60 * max 1 ttl } := by
      simp [createStudentSessionToken, jwtDecode, hle]
    simp only [verifyLaunchToken, hdec]
    rfl

/-- Witness for the amended claim C2 at concrete tokens: a concrete
non-discriminated decodable token and a concrete launch token are rejected by
the student-session verifier, and a concrete student-session token is
accepted by the launch verifier. -/
theorem student_session_discriminator_one_way_witness :
    (∃ e, verifyStudentSessionToken (.signed refreshPayloadW "x") "x" 0 = .error e) ∧
    (∃ e, verifyStudentSessionToken (createLaunchToken "stu-100" "Bob" "bob@x" "x" 0)
      "x" 100 = .error e) ∧
    verifyLaunchToken (createStudentSessionToken "stu-100" "Bob" "bob@x" "x" 720 0)
      "x" 600 =
      .ok { studentExternalId := "stu-100", studentName := "Bob", studentEmail := "bob@x" } := by
  refine ⟨?_, ?_, ?_⟩
  · exact student_session_discriminator_one_way.1 (.signed refreshPayloadW "x") "x" 0
      refreshPayloadW (by decide) (by decide)
  · exact student_session_discriminator_one_way.2.1 "stu-100" "Bob" "bob@x" "x" 0 100
      (by decide)
  · exact student_session_discriminator_one_way.2.2 "stu-100" "Bob" "bob@x" "x" 720 0 600
      (by decide)

/-- Claim C8 counterexample: for an existing active session, an expired
launch token presented together with an INVALID proof token is rejected as
stale-QR (HTTP 400), not as identity-not-confirmed (HTTP 401) — the proof is
checked first, so the claim's "returns the Unauthenticated rejection
regardless of whether the presented proof token is valid" fails. -/
theorem mark_stale_qr_shadows_expired_launch_cx :
    (trafficDbW.sessions.find? (fun s => s.id = "s1")).any (·.isActive) = true ∧
    verifyLaunchToken expiredLaunchW trafficCfgW.launchTokenSecret 1000 =
      .error .invalidOrExpired ∧
    markAttendance macW trafficCfgW trafficDbW "s1" "not-a-proof" expiredLaunchW
      1000 "f1" = .error .staleQr ∧
    MarkError.staleQr ≠ MarkError.identityNotConfirmed := by
  refine ⟨by decide, rfl, rfl, by decide⟩

/-- Claim C8 (amended): when the presented proof token IS valid, a request
whose launch token fails verification (expired or otherwise invalid) against
an existing active session is rejected with the identity-not-confirmed error,
HTTP 401, which is distinguishable from the stale-QR rejection (HTTP 400);
when the proof itself is invalid, the stale-QR rejection is returned
instead. -/
theorem expired_launch_rejected_when_qr_valid
    (mac : String → String → String) (cfg : TrafficConfig) (st : TrafficDb)
    (sessionId qrToken : String) (launchToken : Jwt) (now : Nat) (freshId : String)
    (s : TrafficSession)
    (hs : st.sessions.find? (fun x => x.id = sessionId) = some s)
    (hactive : s.isActive = true)
    (hlaunch : ∃ e, verifyLaunchToken launchToken cfg.launchTokenSecret now = .error e) :
    (verifyQrToken mac s qrToken now = true →
      markAttendance mac cfg st sessionId qrToken launchToken now freshId =
        .error .identityNotConfirmed) ∧
    (verifyQrToken mac s qrToken now = false →
      markAttendance mac cfg st sessionId qrToken launchToken now freshId =
        .error .staleQr) ∧
    MarkError.identityNotConfirmed.status = 401 ∧
    MarkError.identityNotConfirmed ≠ MarkError.staleQr ∧
    MarkError.identityNotConfirmed.status ≠ MarkError.staleQr.status := by
  obtain ⟨e, he⟩ := hlaunch
  refine ⟨?_, ?_, rfl, by decide, by decide⟩
  · intro hqr
    simp only [markAttendance, hs, hactive, hqr, he]
    rfl
  · intro hqr
    simp only [markAttendance, hs, hactive, hqr]
    rfl

/-- Witness for the amended claim C8: concrete active session `s1`, expired
launch token, valid window-200 proof at time 1000 → identity-not-confirmed;
same request with a garbage proof → stale-QR. -/
theorem expired_launch_rejected_when_qr_valid_witness :
    markAttendance macW trafficCfgW trafficDbW "s1" (qrExpected macW qrSessW 200)
      expiredLaunchW 1000 "f1" = .error .identityNotConfirmed ∧
    markAttendance macW trafficCfgW trafficDbW "s1" "not-a-proof" expiredLaunchW
      1000 "f1" = .error .staleQr := by
  have h := expired_launch_rejected_when_qr_valid macW trafficCfgW trafficDbW "s1"
    (qrExpected macW qrSessW 200) expiredLaunchW 1000 "f1" qrSessW (by decide) (by decide)
    ⟨.invalidOrExpired, rfl⟩
  have h2 := expired_launch_rejected_when_qr_valid macW trafficCfgW trafficDbW "s1"
    "not-a-proof" expiredLaunchW 1000 "f1" qrSessW (by decide) (by decide)
    ⟨.invalidOrExpired, rfl⟩
  exact ⟨h.1 (by decide), h2.2.1 (by decide)⟩

/-- Elimination of a successful refresh-token decode. -/
theorem decodeRefreshToken_ok_elim {cfg : SsoConfig} {tok : Jwt} {now : Nat}
    {sid uid : String} {p : Payload}
    (h : decodeRefreshToken cfg tok now = .ok (sid, uid, p)) :
    tok = .signed p cfg.refreshSecret ∧ now ≤ p.exp ∧
    p.tokenType = some "refresh" ∧ p.jti = some sid ∧ p.sub = some uid := by
  unfold decodeRefreshToken at h
  split at h
  · exact absurd h (by simp)
  next q hq =>
    rw [jwtDecode_eq_some] at hq
    split at h
    · exact absurd h (by simp)
    next htype =>
      split at h
      next j sb hj hsub =>
        simp only [Except.ok.injEq, Prod.mk.injEq] at h
        obtain ⟨h1, h2, h3⟩ := h
        subst h1; subst h2; subst h3
        refine ⟨hq.1, hq.2, ?_, hj, hsub⟩
        simpa using htype
      next => exact absurd h (by simp)

/-- The revocation map preserves the session-id predicate. -/
theorem revokePreservesId (sid : String) :
    ∀ r : RefreshSession,
      (fun x => decide (x.id = sid))
        ((fun x => if x.id = sid then { x with revoked := true } else x) r) =
      (fun x => decide (x.id = sid)) r := by
  intro r
  by_cases h : r.id = sid <;> simp [h]

/-- Claim C9: logout never hard-fails — for every input (valid token,
already-logged-out token, garbage) it answers ok; when the token decodes to a
session that is found and not yet revoked, that session becomes revoked; and
a second logout with the same token leaves the state unchanged and still
answers ok. -/
theorem logout_idempotent_never_fails
    (cfg : SsoConfig) (st : SsoDb) (tok : Jwt) (now : Nat) :
    (logout cfg st tok now).2 = "ok" ∧
    (∀ r, logout cfg st (.garbage r) now = (st, "ok")) ∧
    (∀ sid uid p, decodeRefreshToken cfg tok now = .ok (sid, uid, p) →
      ∀ s, st.findSession sid = some s → s.revoked = false →
        (logout cfg st tok now).1.findSession sid = some { s with revoked := true } ∧
        ∀ now2, logout cfg (logout cfg st tok now).1 tok now2 =
          ((logout cfg st tok now).1, "ok")) := by
  refine ⟨?_, ?_, ?_⟩
  · cases hd : decodeRefreshToken cfg tok now with
    | error e => simp [logout, hd]
    | ok trip =>
      obtain ⟨sid, uid, p⟩ := trip
      cases hsf : st.findSession sid with
      | none => simp [logout, hd, hsf]
      | some s =>
        by_cases hrev : s.revoked <;> simp [logout, hd, hsf, hrev]
  · intro r
    have : decodeRefreshToken cfg (.garbage r) now = .error .invalidToken := rfl
    simp [logout, this]
  · intro sid uid p hd s hs hrev
    have hL : logout cfg st tok now =
        ({ st with sessions := st.sessions.map (fun r => if r.id = sid then { r with revoked := true } else r) }, "ok") := by
      simp [logout, hd, hs, hrev]
    have hsid : s.id = sid := by
      have := List.find?_some hs
      simpa using this
    have hfind : (st.sessions.map
        (fun r => if r.id = sid then { r with revoked := true } else r)).find?
        (fun x => x.id = sid) = some { s with revoked := true } := by
      rw [find?_map_self _ _ (revokePreservesId sid)]
      rw [show st.sessions.find? (fun x => decide (x.id = sid)) = some s from hs]
      simp [hsid]
    constructor
    · rw [hL]
      exact hfind
    · intro now2
      rw [hL]
      cases hd2 : decodeRefreshToken cfg tok now2 with
      | error e => simp [logout, hd2]
      | ok trip2 =>
        obtain ⟨sid2, uid2, p2⟩ := trip2
        have e1 := decodeRefreshToken_ok_elim hd
        have e2 := decodeRefreshToken_ok_elim hd2
        have hp : p2 = p := by
          have heq : Jwt.signed p cfg.refreshSecret = Jwt.signed p2 cfg.refreshSecret :=
            e1.1 ▸ e2.1
          injection heq with h1 h2
          exact h1.symm
        have hsid2 : sid2 = sid := by
          have hj1 := e1.2.2.2.1
          have hj2 := e2.2.2.2.1
          rw [hp] at hj2
          rw [hj1] at hj2
          injection hj2 with h
          exact h.symm
        subst hsid2
        simp only [logout, hd2, SsoDb.findSession] at *
        rw [hfind]
        simp

/-- Witness for claim C9: logging out the concrete login session `sid0`
answers ok and revokes it; a garbage logout is an ok no-op; the repeated
logout answers ok and changes nothing. -/
theorem logout_idempotent_never_fails_witness :
    (logout ssoCfgW ssoDbW refreshTokW 5).2 = "ok" ∧
    logout ssoCfgW ssoDbW (.garbage "zzz") 5 = (ssoDbW, "ok") ∧
    (logout ssoCfgW ssoDbW refreshTokW 5).1.findSession "sid0" =
      some { refreshSessW with revoked := true } ∧
    logout ssoCfgW (logout ssoCfgW ssoDbW refreshTokW 5).1 refreshTokW 6 =
      ((logout ssoCfgW ssoDbW refreshTokW 5).1, "ok") := by
  have h := logout_idempotent_never_fails ssoCfgW ssoDbW refreshTokW 5
  have h3 := h.2.2 "sid0" "u1" refreshPayloadW rfl refreshSessW rfl rfl
  exact ⟨h.1, h.2.1 "zzz", h3.1, h3.2 6⟩

/-- Claim C7: marking attendance is idempotent per (session, student): when a
mark already exists for the active session and the launch-token identity
(stored count 1), a second valid mark call answers `already_marked`, leaves
the state unchanged, and the stored count stays exactly 1. -/
theorem mark_attendance_idempotent
    (mac : String → String → String) (cfg : TrafficConfig) (st : TrafficDb)
    (sessionId qrToken : String) (launchToken : Jwt) (now : Nat) (freshId : String)
    (s : TrafficSession) (idn : Identity)
    (hs : st.sessions.find? (fun x => x.id = sessionId) = some s)
    (hactive : s.isActive = true)
    (hqr : verifyQrToken mac s qrToken now = true)
    (hidn : verifyLaunchToken launchToken cfg.launchTokenSecret now = .ok idn)
    (hcount : countMarks st sessionId idn.studentExternalId = 1) :
    markAttendance mac cfg st sessionId qrToken launchToken now freshId =
      .ok (st, .alreadyMarked) ∧
    countMarks st sessionId idn.studentExternalId = 1 ∧
    MarkOutcome.alreadyMarked.statusString = "already_marked" := by
  have hne : (st.attendance.filter (fun a =>
      a.sessionId = sessionId ∧ a.studentExternalId = idn.studentExternalId)) ≠ [] := by
    intro hnil
    rw [countMarks, hnil] at hcount
    simp at hcount
  obtain ⟨x, hx⟩ := List.exists_mem_of_ne_nil _ hne
  have hxmem := List.mem_filter.mp hx
  have hfound : (st.attendance.find? (fun a =>
      a.sessionId = sessionId ∧ a.studentExternalId = idn.studentExternalId)).isSome := by
    rw [List.find?_isSome]
    exact ⟨x, hxmem.1, hxmem.2⟩
  obtain ⟨a, ha⟩ := Option.isSome_iff_exists.mp hfound
  refine ⟨?_, hcount, rfl⟩
  simp only [markAttendance, hs, hactive, hqr, hidn, ha]
  rfl

/-- Witness for claim C7: in the concrete state where `stu-100` is already
marked in active session `s1`, a repeated mark call with a valid proof and a
valid launch token answers `already_marked` and the stored count stays 1. -/
theorem mark_attendance_idempotent_witness :
    markAttendance macW trafficCfgW trafficDbMarkedW "s1" (qrExpected macW qrSessW 2)
      validLaunchW 10 "f2" = .ok (trafficDbMarkedW, .alreadyMarked) ∧
    countMarks trafficDbMarkedW "s1" "stu-100" = 1 := by
  have h := mark_attendance_idempotent macW trafficCfgW trafficDbMarkedW "s1"
    (qrExpected macW qrSessW 2) validLaunchW 10 "f2" qrSessW
    { studentExternalId := "stu-100", studentName := "Bob", studentEmail := "bob@x" }
    (by decide) (by decide) (by decide) rfl (by decide)
  exact ⟨h.1, h.2.1⟩

/-- Claim C5: the external-link operation preserves the 1:1 invariant
atomically — when external id X is linked to account A, linking X to a
different account B (which exists and passes the caller gate) fails with the
duplicate-external-link conflict rejection and returns the state exactly as
it was before the call. -/
theorem telegram_link_one_to_one
    (st : SsoDb) (data : LinkRequest) (caller : CallerCtx) (now : Nat)
    (accountA accountB : String) (l : TelegramLink) (uB : User)
    (hlink : st.links.find? (fun x => x.telegramId = data.telegramId) = some l)
    (hla : l.userId = accountA)
    (hb : st.findUser accountB = some uB)
    (hab : accountB ≠ accountA)
    (hgate : linkCallerGate caller uB = none) :
    linkTelegramEndpoint st accountB data caller now =
      (st, .error .telegramAlreadyLinked) := by
  have hne : l.userId ≠ accountB := by
    rw [hla]
    exact fun h => hab h.symm
  simp only [linkTelegramEndpoint, linkTelegram, hb, hgate, hlink]
  simp [Option.any, hne]

/-- Witness for claim C5: telegram id 42 is linked to account `uA`; the
attempt to link it to `uB` (as an SSO admin) is rejected and the state —
`uA`'s link, `uB`'s absence of one, both accounts — is exactly as before. -/
theorem telegram_link_one_to_one_witness :
    linkTelegramEndpoint linkDbW "uB" linkReqW .admin 3 =
      (linkDbW, .error .telegramAlreadyLinked) := by
  exact telegram_link_one_to_one linkDbW linkReqW .admin 3 "uA" "uB" tgLinkW userBW
    (by decide) (by decide) (by decide) (by decide) (by decide)

theorem applyRoleFilter_subset (l : List User) (rf : Option String) :
    applyRoleFilter l rf ⊆ l := by
  intro x hx
  simp only [applyRoleFilter] at hx
  split at hx
  · exact (List.mem_filter.mp hx).1
  · exact hx

theorem applyEntityIdsFilter_subset (l : List User) (ei : Option String) :
    applyEntityIdsFilter l ei ⊆ l := by
  intro x hx
  simp only [applyEntityIdsFilter] at hx
  split at hx
  · split at hx
    · exact (List.mem_filter.mp hx).1
    · exact hx
  · exact hx

theorem applySearchFilter_subset (l : List User) (se : Option String) :
    applySearchFilter l se ⊆ l := by
  intro x hx
  simp only [applySearchFilter] at hx
  split at hx
  · exact (List.mem_filter.mp hx).1
  · exact hx

/-- Every user surviving a truthy app filter carries exactly that app tag. -/
theorem applyAppFilter_app {l : List User} {a : String} {u : User}
    (ha : a ≠ "") (h : u ∈ applyAppFilter l (some a)) : u.app = a := by
  unfold applyAppFilter at h
  have htr : optTruthy (some a) = true := by
    simp [optTruthy, String.isEmpty_iff, ha]
  rw [htr] at h
  simp only [if_true] at h
  have := (List.mem_filter.mp h).2
  simpa using this

/-- Every serialized item of the list pipeline comes from a user that
survived the app filter. -/
theorem listUsersQuery_items_shape (st : SsoDb)
    (af rf se ei : Option String) (pg ps : Option Nat) :
    ∀ su ∈ (listUsersQuery st af rf se ei pg ps).items,
      ∃ u, u ∈ applyAppFilter st.users af ∧ su = serializeUser st u := by
  intro su hsu
  unfold listUsersQuery at hsu
  have hchain : ∀ x ∈ (applySearchFilter
      (applyEntityIdsFilter (applyRoleFilter (applyAppFilter st.users af) rf) ei)
      se).mergeSort userListLe, x ∈ applyAppFilter st.users af := by
    intro x hx
    exact applyRoleFilter_subset _ _
      (applyEntityIdsFilter_subset _ _
        (applySearchFilter_subset _ _ (List.mem_mergeSort.mp hx)))
  split at hsu
  · simp only [UserListResult.items] at hsu
    obtain ⟨u, hu, hser⟩ := List.mem_map.mp hsu
    exact ⟨u, hchain u hu, hser.symm⟩
  · simp only [UserListResult.items] at hsu
    obtain ⟨u, hu, hser⟩ := List.mem_map.mp hsu
    have : u ∈ (applySearchFilter
        (applyEntityIdsFilter (applyRoleFilter (applyAppFilter st.users af) rf) ei)
        se).mergeSort userListLe :=
      List.drop_subset _ _ (List.take_subset _ _ hu)
    exact ⟨u, hchain u this, hser.symm⟩

/-- Claim C4: listing identities as a service caller is confined to the
caller's allowed app set: a caller resolved to `services` gets Forbidden for
`app=traffic` and succeeds for `app=services`; and every row any service
caller ever receives belongs to an app in that caller's allowed set. -/
theorem list_users_scoped_to_caller_apps
    (cfg : SsoConfig) (hdr : Option String) (st : SsoDb)
    (roleFilter search entityIds : Option String) (page pageSize : Option Nat)
    (hres : resolveServiceCaller cfg hdr = some "services") :
    (listUsers st (.service "services") (some "traffic") roleFilter search entityIds
      page pageSize = .error .forbiddenAppFilter ∧
     ListError.forbiddenAppFilter.status = 403) ∧
    (∃ r, listUsers st (.service "services") (some "services") roleFilter search
      entityIds page pageSize = .ok r) ∧
    (∀ (svc : String) (af : Option String) (r : UserListResult),
      listUsers st (.service svc) af roleFilter search entityIds page pageSize = .ok r →
      ∃ a, af = some a ∧ a ∈ callerAllowedApps svc ∧ ∀ su ∈ r.items, su.app = a) := by
  refine ⟨⟨rfl, rfl⟩, ⟨_, rfl⟩, ?_⟩
  intro svc af r h
  simp only [listUsers] at h
  split_ifs at h with h1 h2
  · obtain ⟨a, ha⟩ : ∃ a, af = some a := by
      cases af with
      | none => exact absurd h1 (by simp [optTruthy])
      | some a => exact ⟨a, rfl⟩
    have hane : a ≠ "" := by
      intro hc
      rw [ha, hc] at h1
      exact absurd h1 (by decide)
    have hallowed : a ∈ callerAllowedApps svc := by
      simpa [ha] using h2
    refine ⟨a, ha, hallowed, ?_⟩
    intro su hsu
    have hr : r = listUsersQuery st af roleFilter search entityIds page pageSize := by
      injection h with h
      exact h.symm
    rw [hr] at hsu
    obtain ⟨u, humem, hser⟩ := listUsersQuery_items_shape st af roleFilter search
      entityIds page pageSize su hsu
    rw [ha] at humem
    have happ := applyAppFilter_app hane humem
    rw [hser]
    exact happ

/-- Witness for claim C4: the caller holding the `services` pre-shared secret
resolves to `services`; listing `app=traffic` is Forbidden; listing
`app=services` succeeds and every returned row is a `services` account. -/
theorem list_users_scoped_to_caller_apps_witness :
    resolveServiceCaller ssoCfgW (some "svc-services") = some "services" ∧
    listUsers listDbW (.service "services") (some "traffic") none none none none none =
      .error .forbiddenAppFilter ∧
    (∃ r, listUsers listDbW (.service "services") (some "services") none none none
      none none = .ok r ∧ ∀ su ∈ r.items, su.app = "services") := by
  have h := list_users_scoped_to_caller_apps ssoCfgW (some "svc-services") listDbW
    none none none none none (by decide)
  refine ⟨by decide, h.1.1, ?_⟩
  obtain ⟨r, hr⟩ := h.2.1
  obtain ⟨a, ha1, _, ha3⟩ := h.2.2 "services" (some "services") r hr
  refine ⟨r, hr, ?_⟩
  injection ha1 with ha1
  rw [← ha1] at ha3
  exact ha3

/-- Claim C3: provisioning upsert is idempotent by (app, role, entity_id) —
(a) when an account matching the triple exists, a successful upsert updates
that row in place (name, re-hashed password, username) and the account count
is unchanged; (b) a username held by a different account than the matched one
fails with the duplicate-username error; (c) when the entity-id lookup and
the roster-id lookup hit two different rows, the call fails with the
ambiguous-identity conflict (HTTP 409). -/
theorem provision_upsert_idempotent :
    (∀ (st : SsoDb) (app role : String) (data : ProvisionRequest) (freshId : String)
        (now : Nat) (u0 : User) (st' : SsoDb) (u : User),
      findByEntity st app role data.entityId = some u0 →
      upsertUser st app role data freshId now = .ok (st', u) →
      st'.users.length = st.users.length ∧
      u = { u0 with username := data.username, passwordHash := pwdHash data.password
                    fullName := data.fullName, entityId := some data.entityId
                    ruzTeacherId := data.ruzTeacherId, isActive := true } ∧
      st'.users = st.users.map (fun x => if x.id = u0.id then u else x)) ∧
    (∀ (st : SsoDb) (app role : String) (data : ProvisionRequest) (freshId : String)
        (now : Nat) (u0 w : User),
      data.entityId ≠ "" →
      findByEntity st app role data.entityId = some u0 →
      findByUsername st data.username = some w →
      w.id ≠ u0.id →
      (∀ r, data.ruzTeacherId = some r →
        ∀ b, findByRuz st app role r = some b → b.id = u0.id) →
      upsertUser st app role data freshId now = .error .duplicateUsername) ∧
    (∀ (st : SsoDb) (app role : String) (data : ProvisionRequest) (freshId : String)
        (now : Nat) (a b : User) (r : Int),
      data.entityId ≠ "" →
      findByEntity st app role data.entityId = some a →
      data.ruzTeacherId = some r →
      findByRuz st app role r = some b →
      a.id ≠ b.id →
      upsertUser st app role data freshId now = .error .ambiguousIdentity ∧
      UpsertError.ambiguousIdentity.status = 409) := by
  refine ⟨?_, ?_, ?_⟩
  · intro st app role data freshId now u0 st' u hE hok
    simp only [upsertUser, hE, Option.some_orElse] at hok
    split at hok
    · exact absurd hok (by simp)
    split at hok
    · exact absurd hok (by simp)
    split at hok
    · exact absurd hok (by simp)
    simp only [Except.ok.injEq, Prod.mk.injEq] at hok
    obtain ⟨h1, h2⟩ := hok
    subst h1
    subst h2
    refine ⟨by simp, rfl, rfl⟩
  · intro st app role data freshId now u0 w hne hE hU hwid hruz
    cases hr : data.ruzTeacherId with
    | none =>
      simp only [upsertUser, if_neg hne, hE, hU, hr, Option.some_orElse]
      simp [Option.any, Option.elim, hwid]
    | some r =>
      cases hb : findByRuz st app role r with
      | none =>
        simp only [upsertUser, if_neg hne, hE, hU, hr, hb, Option.some_orElse]
        simp [Option.any, Option.elim, hwid]
      | some b =>
        have hbid : b.id = u0.id := hruz r hr b hb
        simp only [upsertUser, if_neg hne, hE, hU, hr, hb, Option.some_orElse]
        simp [Option.any, Option.elim, hbid, hwid]
  · intro st app role data freshId now a b r hne hE hr hB hab
    refine ⟨?_, rfl⟩
    simp only [upsertUser, if_neg hne, hE, hr, hB]
    have hamb : Option.any (fun x => Option.any (fun y => decide (x.id ≠ y.id)) (some b)) (some a) = true := by
      simp [Option.any, hab]
    rw [hamb]
    simp

/-- Witness for claim C3: re-upserting teacher entity `e1` with a changed
name keeps exactly one account and renames it in place; sending entity `e1`
with username `taken` (owned by a different account) is the
duplicate-username rejection; a request whose entity id and roster id match
two different rows is the ambiguous-identity conflict. -/
theorem provision_upsert_idempotent_witness :
    ((upsertUser provDb1W "traffic" "teacher" reqRenameW "idX" 5).toOption.map
      (fun x => (x.1.users.length, x.2.fullName, x.2.id))) =
      some (1, "Teacher Renamed", "id1") ∧
    upsertUser provDbW "traffic" "teacher" reqTakenW "idY" 5 =
      .error .duplicateUsername ∧
    upsertUser ambDbW "traffic" "teacher" preqW "idZ" 5 =
      .error .ambiguousIdentity := by
  refine ⟨?_, ?_, ?_⟩
  · have hsome : (upsertUser provDb1W "traffic" "teacher" reqRenameW "idX" 5).toOption.isSome = true := by
      decide
    cases hok : upsertUser provDb1W "traffic" "teacher" reqRenameW "idX" 5 with
    | error e => rw [hok] at hsome; simp [Except.toOption] at hsome
    | ok pr =>
      obtain ⟨st', u⟩ := pr
      obtain ⟨hlen, hu, -⟩ := provision_upsert_idempotent.1 provDb1W "traffic" "teacher"
        reqRenameW "idX" 5 provUserW st' u (by decide) hok
      show Option.map (fun x => (x.1.users.length, x.2.fullName, x.2.id))
        (some (st', u)) = some (1, "Teacher Renamed", "id1")
      have hm : Option.map (fun x => (x.1.users.length, x.2.fullName, x.2.id))
          (some (st', u)) = some (st'.users.length, u.fullName, u.id) := rfl
      rw [hm, hlen, hu]
      rfl
  · refine provision_upsert_idempotent.2.1 provDbW "traffic" "teacher" reqTakenW "idY" 5
      provUserW provUser2W (by decide) (by decide) (by decide) (by decide) ?_
    intro r hr b hb
    have hr7 : r = 7 := by
      have : (some 7 : Option Int) = some r := hr
      injection this with h
      exact h.symm
    subst hr7
    have h7 : findByRuz provDbW "traffic" "teacher" 7 = some provUserW := by decide
    rw [h7] at hb
    injection hb with hb
    rw [← hb]
  · exact (provision_upsert_idempotent.2.2 ambDbW "traffic" "teacher" preqW "idZ" 5
      ambUser1W ambUser2W 7 (by decide) (by decide) rfl (by decide) (by decide)).1

/-- Claim C10: refresh additionally requires a live account — when every
session-level check passes but the owning account is missing or deactivated,
the call fails with 401 and the stored state is returned unchanged (the
session is NOT revoked, nothing is created); after reactivating the account,
the very same token refreshes successfully. -/
theorem refresh_requires_active_account
    (cfg : SsoConfig) (st : SsoDb) (tok : Jwt) (now : Nat) (fresh : String)
    (sid uid : String) (p : Payload) (s : RefreshSession)
    (hdec : decodeRefreshToken cfg tok now = .ok (sid, uid, p))
    (hs : st.findSession sid = some s)
    (howner : s.userId = uid)
    (hrev : s.revoked = false)
    (hexp : now < s.expiresAt)
    (hhash : s.tokenHash = hashToken tok)
    (huser : st.findUser uid = none ∨
      ∃ u, st.findUser uid = some u ∧ u.isActive = false) :
    refreshEndpoint cfg st tok now fresh = (st, .error .userUnavailable) ∧
    RefreshError.userUnavailable.status = 401 ∧
    (∀ u, st.findUser uid = some u →
      ∃ st' a r, refreshTokens cfg
        { st with users := st.users.map (fun x => if x.id = uid then { x with isActive := true } else x) }
        tok now fresh = .ok (st', a, r)) := by
  have hexp' : ¬ s.expiresAt ≤ now := by omega
  have herr : refreshTokens cfg st tok now fresh = .error .userUnavailable := by
    simp only [refreshTokens, hdec, hs, howner, hrev, hhash]
    rcases huser with hn | ⟨u, hu, hin⟩
    · simp [hexp', hn]
    · simp [hexp', hu, hin]
  refine ⟨by simp [refreshEndpoint, herr], rfl, ?_⟩
  intro u hu
  have huid : u.id = uid := by
    have := List.find?_some hu
    simpa using this
  have hfu : SsoDb.findUser
      { st with users := st.users.map (fun x => if x.id = uid then { x with isActive := true } else x) } uid =
      some { u with isActive := true } := by
    show (st.users.map (fun x => if x.id = uid then { x with isActive := true } else x)).find? (fun x => x.id = uid) =
      some { u with isActive := true }
    rw [find?_map_self _ _ (by
      intro a
      by_cases h : a.id = uid <;> simp [h])]
    rw [show st.users.find? (fun x => decide (x.id = uid)) = some u from hu]
    simp [huid]
  have hs2 : SsoDb.findSession
      { st with users := st.users.map (fun x => if x.id = uid then { x with isActive := true } else x) } sid =
      some s := hs
  cases hres : refreshTokens cfg
      { st with users := st.users.map (fun x => if x.id = uid then { x with isActive := true } else x) }
      tok now fresh with
  | ok trip =>
    obtain ⟨st', a, r⟩ := trip
    exact ⟨st', a, r, rfl⟩
  | error e =>
    exfalso
    simp only [refreshTokens, hdec, hs2, howner, hrev, hhash, hfu] at hres
    simp [hexp'] at hres

/-- Witness for claim C10: the stored session `sid0` passes every
session-level check, but its owner `u1` is deactivated, so the refresh is a
401 user-unavailable rejection that leaves the state untouched; after
reactivating `u1`, the same token refreshes successfully. -/
theorem refresh_requires_active_account_witness :
    refreshEndpoint ssoCfgW ssoDbInactiveW refreshTokW 5 "sid1" =
      (ssoDbInactiveW, .error .userUnavailable) ∧
    (∃ st' a r, refreshTokens ssoCfgW
      { ssoDbInactiveW with users := ssoDbInactiveW.users.map (fun x => if x.id = "u1" then { x with isActive := true } else x) }
      refreshTokW 5 "sid1" = .ok (st', a, r)) := by
  have h := refresh_requires_active_account ssoCfgW ssoDbInactiveW refreshTokW 5 "sid1"
    "sid0" "u1" refreshPayloadW refreshSessW rfl rfl rfl rfl (by decide) rfl
    (Or.inr ⟨ssoUserInactiveW, rfl, rfl⟩)
  exact ⟨h.1, h.2.2 ssoUserInactiveW rfl⟩

/-- Elimination of a successful refresh call: all checks passed and the
result is the rotated state. -/
theorem refreshTokens_ok_elim {cfg : SsoConfig} {st : SsoDb} {tok : Jwt}
    {now : Nat} {freshId : String} {st' : SsoDb} {a r : Jwt}
    (hok : refreshTokens cfg st tok now freshId = .ok (st', a, r)) :
    ∃ sid uid p s u,
      decodeRefreshToken cfg tok now = .ok (sid, uid, p) ∧
      st.findSession sid = some s ∧
      s.userId = uid ∧ s.revoked = false ∧ now < s.expiresAt ∧
      s.tokenHash = hashToken tok ∧
      st.findUser uid = some u ∧ u.isActive = true ∧
      r = makeRefreshToken cfg u freshId now ∧
      a = makeAccessToken cfg u now ∧
      st' = { st with sessions :=
        (st.sessions.map (fun x => if x.id = sid then { x with revoked := true } else x)) ++
        [{ id := freshId, userId := u.id
           tokenHash := hashToken (makeRefreshToken cfg u freshId now)
           expiresAt := now + cfg.refreshTtl, revoked := false, createdAt := now }] } := by
  unfold refreshTokens at hok
  split at hok
  · exact absurd hok (by simp)
  next sid uid p hdec =>
    split at hok
    · exact absurd hok (by simp)
    next s hs =>
      split at hok
      · exact absurd hok (by simp)
      next howner =>
        split at hok
        · exact absurd hok (by simp)
        next hrev =>
          split at hok
          · exact absurd hok (by simp)
          next hexp =>
            split at hok
            · exact absurd hok (by simp)
            next hhash =>
              split at hok
              · exact absurd hok (by simp)
              next u hu =>
                split at hok
                · exact absurd hok (by simp)
                next hact =>
                  simp only [issueRefreshSession] at hok
                  simp only [Except.ok.injEq, Prod.mk.injEq] at hok
                  obtain ⟨h1, h2, h3⟩ := hok
                  refine ⟨sid, uid, p, s, u, hdec, hs, not_not.mp (fun hc => howner hc),
                    Bool.not_eq_true _ ▸ hrev, by omega, not_not.mp (fun hc => hhash hc),
                    hu, by simpa using hact, h3.symm, h2.symm, h1.symm⟩

/-- Claim C1: refresh tokens form a strict single-use rotation chain — after
a successful `refresh(t0)` returning `t1`: every later `refresh(t0)` is
rejected with a 401; the old session row is revoked; the new session row is
live but stores a hash that no longer matches `hash(t0)`; and `refresh(t1)`
succeeds while its session is unexpired (the owning account, untouched by the
rotation, is still active). -/
theorem refresh_rotation_single_use
    (cfg : SsoConfig) (st : SsoDb) (t0 : Jwt) (now : Nat) (fresh : String)
    (st2 : SsoDb) (acc t1 : Jwt)
    (hfresh : ∀ s ∈ st.sessions, s.id ≠ fresh)
    (hok : refreshTokens cfg st t0 now fresh = .ok (st2, acc, t1)) :
    (∀ now2 fresh2, ∃ e, refreshTokens cfg st2 t0 now2 fresh2 = .error e ∧
      RefreshError.status e = 401) ∧
    (∀ sid0 uid0 p0, decodeRefreshToken cfg t0 now = .ok (sid0, uid0, p0) →
      ∃ s0, st2.findSession sid0 = some s0 ∧ s0.revoked = true) ∧
    (∃ snew, st2.findSession fresh = some snew ∧ snew.revoked = false ∧
      snew.tokenHash ≠ hashToken t0) ∧
    (∀ now2 fresh2, now2 < now + cfg.refreshTtl →
      ∃ st3 acc2 t2, refreshTokens cfg st2 t1 now2 fresh2 = .ok (st3, acc2, t2)) := by
  obtain ⟨sid, uid, p, s, u, hdec, hs, howner, hrev, hexp, hhash, hu, hact, ht1, hacc, hst2⟩ :=
    refreshTokens_ok_elim hok
  have hsid : s.id = sid := by simpa using List.find?_some hs
  have hmem : s ∈ st.sessions := List.mem_of_find?_eq_some hs
  have hsidfresh : sid ≠ fresh := hsid ▸ hfresh s hmem
  have huid : u.id = uid := by simpa using List.find?_some hu
  have hdecElim := decodeRefreshToken_ok_elim hdec
  have ht0eq : t0 = .signed p cfg.refreshSecret := hdecElim.1
  have hjti : p.jti = some sid := hdecElim.2.2.2.1
  have hsub : p.sub = some uid := hdecElim.2.2.2.2
  have hmapfind : (st.sessions.map
      (fun x => if x.id = sid then { x with revoked := true } else x)).find?
      (fun x : RefreshSession => x.id = sid) = some { s with revoked := true } := by
    rw [find?_map_self _ _ (by
      intro a
      by_cases h : a.id = sid <;> simp [h])]
    rw [show st.sessions.find? (fun x => decide (x.id = sid)) = some s from hs]
    simp [hsid]
  have hfind_sid : st2.findSession sid = some { s with revoked := true } := by
    rw [hst2]
    show ((st.sessions.map (fun x : RefreshSession => if x.id = sid then { x with revoked := true } else x)) ++
        [({ id := fresh, userId := u.id
            tokenHash := hashToken (makeRefreshToken cfg u fresh now)
            expiresAt := now + cfg.refreshTtl, revoked := false, createdAt := now } : RefreshSession)]).find?
      (fun x : RefreshSession => x.id = sid) = some { s with revoked := true }
    rw [List.find?_append, hmapfind]
    rfl
  have hmapnone : (st.sessions.map
      (fun x => if x.id = sid then { x with revoked := true } else x)).find?
      (fun x => x.id = fresh) = none := by
    rw [List.find?_eq_none]
    intro x hx
    obtain ⟨y, hy, hxy⟩ := List.mem_map.mp hx
    have hyid : x.id = y.id := by
      rw [← hxy]
      by_cases h : y.id = sid <;> simp [h]
    simp only [hyid, decide_eq_true_eq]
    exact hfresh y hy
  have hfind_fresh : st2.findSession fresh = some
      { id := fresh, userId := u.id
        tokenHash := hashToken (makeRefreshToken cfg u fresh now)
        expiresAt := now + cfg.refreshTtl, revoked := false, createdAt := now } := by
    rw [hst2]
    show ((st.sessions.map (fun x : RefreshSession => if x.id = sid then { x with revoked := true } else x)) ++
        [({ id := fresh, userId := u.id
            tokenHash := hashToken (makeRefreshToken cfg u fresh now)
            expiresAt := now + cfg.refreshTtl, revoked := false, createdAt := now } : RefreshSession)]).find?
      (fun x : RefreshSession => x.id = fresh) = _
    rw [List.find?_append, hmapnone]
    simp
  have ht1ne : hashToken t1 ≠ hashToken t0 := by
    rw [ht1, ht0eq]
    intro hcon
    injection hcon with hcon
    injection hcon with hpay hsec
    have hjeq : some fresh = some sid := by
      have := congrArg Payload.jti hpay
      simp only [makeRefreshToken] at this
      rw [hjti] at this
      exact this
    injection hjeq with hjeq
    exact hsidfresh hjeq.symm
  refine ⟨?_, ?_, ?_, ?_⟩
  · intro now2 fresh2
    cases hdec2 : decodeRefreshToken cfg t0 now2 with
    | error e =>
      exact ⟨e, by simp only [refreshTokens, hdec2], refreshError_status_401 e⟩
    | ok trip =>
      obtain ⟨sid2, uid2, p2⟩ := trip
      have hE2 := decodeRefreshToken_ok_elim hdec2
      have hp2 : p2 = p := by
        have heq : Jwt.signed p cfg.refreshSecret = Jwt.signed p2 cfg.refreshSecret :=
          ht0eq ▸ hE2.1
        injection heq with h1 h2
        exact h1.symm
      have hsid2 : sid2 = sid := by
        have hj2 := hE2.2.2.2.1
        rw [hp2, hjti] at hj2
        injection hj2 with h
        exact h.symm
      have huid2 : uid2 = uid := by
        have hs2 := hE2.2.2.2.2
        rw [hp2, hsub] at hs2
        injection hs2 with h
        exact h.symm
      subst hsid2
      subst huid2
      refine ⟨.sessionRevoked, ?_, rfl⟩
      simp only [refreshTokens, hdec2, hfind_sid]
      simp [howner]
  · intro sid0 uid0 p0 hdec0
    have hE0 := decodeRefreshToken_ok_elim hdec0
    have hp0 : p0 = p := by
      have heq : Jwt.signed p cfg.refreshSecret = Jwt.signed p0 cfg.refreshSecret :=
        ht0eq ▸ hE0.1
      injection heq with h1 h2
      exact h1.symm
    have hsid0 : sid0 = sid := by
      have hj0 := hE0.2.2.2.1
      rw [hp0, hjti] at hj0
      injection hj0 with h
      exact h.symm
    subst hsid0
    exact ⟨{ s with revoked := true }, hfind_sid, rfl⟩
  · refine ⟨_, hfind_fresh, rfl, ?_⟩
    show hashToken (makeRefreshToken cfg u fresh now) ≠ hashToken t0
    rw [← ht1]
    exact ht1ne
  · intro now2 fresh2 hlt
    have hdecT1 : decodeRefreshToken cfg t1 now2 = .ok (fresh, u.id,
        { Payload.empty with
          sub := some u.id, app := some u.app, role := some u.role
          tokenType := some "refresh", jti := some fresh
          exp := now + cfg.refreshTtl }) := by
      rw [ht1]
      simp [decodeRefreshToken, makeRefreshToken, jwtDecode, Nat.le_of_lt hlt]
    have hckuser : st2.findUser u.id = some u := by
      rw [hst2]
      show st.users.find? (fun x : User => x.id = u.id) = some u
      rw [huid]
      exact hu
    have hnolt : ¬ (now + cfg.refreshTtl ≤ now2) := by omega
    cases hres : refreshTokens cfg st2 t1 now2 fresh2 with
    | ok trip =>
      obtain ⟨st3, a2, r2⟩ := trip
      exact ⟨st3, a2, r2, rfl⟩
    | error e =>
      exfalso
      simp only [refreshTokens, hdecT1, hfind_fresh, hckuser] at hres
      simp [hnolt, hact, ht1, makeRefreshToken] at hres

/-- Witness for claim C1 on the concrete login session `sid0` rotated into
`sid1` at time 5: replaying the old token at time 6 is a 401; `sid0` is
revoked; `sid1` is live with a hash differing from `hash(t0)`; and the new
token refreshes successfully at time 6. -/
theorem refresh_rotation_single_use_witness :
    (∃ e, refreshTokens ssoCfgW rotatedDbW refreshTokW 6 "sid2" = .error e ∧
      RefreshError.status e = 401) ∧
    (∃ s0, rotatedDbW.findSession "sid0" = some s0 ∧ s0.revoked = true) ∧
    (∃ snew, rotatedDbW.findSession "sid1" = some snew ∧ snew.revoked = false ∧
      snew.tokenHash ≠ hashToken refreshTokW) ∧
    (∃ st3 a2 t2, refreshTokens ssoCfgW rotatedDbW rotatedTokW 6 "sid2" =
      .ok (st3, a2, t2)) := by
  have h := refresh_rotation_single_use ssoCfgW ssoDbW refreshTokW 5 "sid1"
    rotatedDbW (makeAccessToken ssoCfgW ssoUserW 5) rotatedTokW (by decide) rfl
  exact ⟨h.1 6 "sid2", h.2.1 "sid0" "u1" refreshPayloadW rfl, h.2.2.1,
    h.2.2.2 6 "sid2" (by decide)⟩
